import Mathlib

/-!
Verification of the nextbus Go client library (`nextbus.go`) against its
natural-language specification.

The embedding is shallow: each Go function is translated into Lean.
Every operation of the client splits into two pure pieces, mirroring the
straight-line structure of the Go code:

* a request builder (the query-parameter list and the URL string built
  from it), and
* a response handler (the chain of checks on the transport error, the
  body-read error and the XML decode, ending in the extraction of the
  relevant sub-list from the decoded envelope).

`url.QueryEscape` / `url.QueryUnescape` from Go's `net/url` are modelled
character-by-character; a `Char` stands for one byte, which is exact for
ASCII inputs (all inputs appearing in the claims are ASCII).
XML documents are modelled as an element tree (`Xml`); `xml.Unmarshal`'s
behaviour on the specific struct schemas of the source is modelled by the
`decode*` functions (repeated child elements with a matching name are
collected in document order; attributes fill string fields, the last
matching attribute winning; a root element whose name differs from the
one required by the `XMLName` field is a decode error).
-/

namespace Nextbus

/-- Go `strings.HasPrefix` on the character level. -/
def listStartsWith : List Char → List Char → Bool
  | _, [] => true
  | [], _ :: _ => false
  | c :: cs, p :: ps => c == p && listStartsWith cs ps

/-- Go `strings.HasPrefix s pre`. -/
def strStartsWith (s pre : String) : Bool :=
  listStartsWith s.data pre.data

/-- Contiguous-substring test on the character level. -/
def listContainsSub (pin : List Char) : List Char → Bool
  | [] => listStartsWith [] pin
  | c :: rest => listStartsWith (c :: rest) pin || listContainsSub pin rest

/-- Go `strings.Contains hay pin`: `pin` occurs contiguously in `hay`. -/
def strContainsSub (hay pin : String) : Bool :=
  listContainsSub pin.data hay.data

/-- Upper-case hexadecimal digit, as used by Go's `net/url` escaping. -/
def upperHexDigit (n : Nat) : Char :=
  if n < 10 then Char.ofNat (48 + n) else Char.ofNat (55 + n)

/-- Go `net/url.shouldEscape c encodeQueryComponent`: everything except
ASCII alphanumerics and `-`, `_`, `.`, `~` is escaped in a query value. -/
def shouldEscapeQuery (c : Char) : Bool :=
  let n := c.toNat
  !((97 ≤ n && n ≤ 122) || (65 ≤ n && n ≤ 90) || (48 ≤ n && n ≤ 57) ||
    n == 45 || n == 95 || n == 46 || n == 126)

/-- One character of Go `url.QueryEscape`: space becomes `+`, characters
that must be escaped become `%XX` with upper-case hex, the rest pass
through. -/
def escapeQueryChar (c : Char) : List Char :=
  if c == ' ' then ['+']
  else if shouldEscapeQuery c then
    ['%', upperHexDigit (c.toNat / 16), upperHexDigit (c.toNat % 16)]
  else [c]

/-- Go `url.QueryEscape` (exact for ASCII input). -/
def queryEscape (s : String) : String :=
  String.mk (s.data.map escapeQueryChar).flatten

/-- Hexadecimal digit value, as accepted by Go `net/url.unhex`. -/
def unhexDigit (c : Char) : Option Nat :=
  let n := c.toNat
  if 48 ≤ n && n ≤ 57 then some (n - 48)
  else if 65 ≤ n && n ≤ 70 then some (n - 55)
  else if 97 ≤ n && n ≤ 102 then some (n - 87)
  else none

/-- Go `url.QueryUnescape` on the character level: `%XX` turns into the
byte `XX` (two valid hex digits required, otherwise the whole unescape
fails), `+` turns into a space, everything else passes through. -/
def unescapeQueryChars : List Char → Option (List Char)
  | [] => some []
  | '%' :: h1 :: h2 :: rest => do
      let a ← unhexDigit h1
      let b ← unhexDigit h2
      let tail ← unescapeQueryChars rest
      pure (Char.ofNat (16 * a + b) :: tail)
  | '%' :: _ => none
  | '+' :: rest => (unescapeQueryChars rest).map (' ' :: ·)
  | c :: rest => (unescapeQueryChars rest).map (c :: ·)

/-- Go `url.QueryUnescape` (exact for ASCII input). -/
def queryUnescape (s : String) : Option String :=
  (unescapeQueryChars s.data).map String.mk

/-- The fixed base endpoint of the NextBus public XML feed. -/
def publicXMLFeed : String :=
  "http://webservices.nextbus.com/service/publicXMLFeed"

/-- Request URL of `GetAgencyList` (built by string concatenation in the
source, no escaping: there are no caller-supplied values). -/
def agencyListURL : String :=
  publicXMLFeed ++ "?command=agencyList"

/-- Request URL of `GetRouteList`: the agency tag is concatenated into
the URL verbatim (the source applies no `url.QueryEscape` here). -/
def routeListURL (agencyTag : String) : String :=
  publicXMLFeed ++ "?command=routeList&a=" ++ agencyTag

/-- Request URL of `GetStopPredictions`: agency tag and stop ID are
concatenated verbatim (no escaping in the source). -/
def stopPredictionsURL (agencyTag stopID : String) : String :=
  publicXMLFeed ++ "?command=predictions&a=" ++ agencyTag ++ "&stopId=" ++ stopID

/-- Request URL of `GetPredictions`: agency, route and stop tags are
concatenated verbatim (no escaping in the source). -/
def predictionsURL (agencyTag routeTag stopTag : String) : String :=
  publicXMLFeed ++ "?command=predictions&a=" ++ agencyTag ++ "&r=" ++ routeTag
    ++ "&s=" ++ stopTag

/-- Type `RouteConfigParam`: the closed set of option constructors the source
exposes for `GetRouteConfig` (`RouteConfigTag`, `RouteConfigTerse`,
`RouteConfigVerbose`), each a pure producer of one query fragment. -/
inductive RouteConfigParam where
  | tag (t : String)
  | terse
  | verbose
deriving DecidableEq

/-- The query fragment produced by invoking a `RouteConfigParam`. -/
def RouteConfigParam.render : RouteConfigParam → String
  | .tag t => "r=" ++ queryEscape t
  | .terse => "terse"
  | .verbose => "verbose"

/-- The query-parameter list built by `GetRouteConfig`. -/
def routeConfigParams (agencyTag : String) (configParams : List RouteConfigParam) :
    List String :=
  ["command=routeConfig", "a=" ++ queryEscape agencyTag]
    ++ configParams.map RouteConfigParam.render

/-- Request URL of `GetRouteConfig`. -/
def routeConfigURL (agencyTag : String) (configParams : List RouteConfigParam) :
    String :=
  publicXMLFeed ++ "?" ++ String.intercalate "&" (routeConfigParams agencyTag configParams)

/-- Type `PredReqParam`: the closed set of option constructors the source
exposes for `GetPredictionsForMultiStops` (`PredReqStop`,
`PredReqShortTitles`). -/
inductive PredReqParam where
  | stop (routeTag stopTag : String)
  | shortTitles
deriving DecidableEq

/-- The query fragment produced by invoking a `PredReqParam`.
`PredReqStop` joins route tag and stop tag with a literal `|` and
escapes the joined string as a unit. -/
def PredReqParam.render : PredReqParam → String
  | .stop routeTag stopTag => "stops=" ++ queryEscape (routeTag ++ "|" ++ stopTag)
  | .shortTitles => "useShortTitles=true"

/-- The query-parameter list built by `GetPredictionsForMultiStops`. -/
def multiStopsParams (agencyTag : String) (params : List PredReqParam) :
    List String :=
  ["command=predictionsForMultiStops", "a=" ++ queryEscape agencyTag]
    ++ params.map PredReqParam.render

/-- Request URL of `GetPredictionsForMultiStops`. -/
def multiStopsURL (agencyTag : String) (params : List PredReqParam) : String :=
  publicXMLFeed ++ "?" ++ String.intercalate "&" (multiStopsParams agencyTag params)

/-- Type `VehicleLocationParam`: the closed set of option constructors the
source exposes for `GetVehicleLocations` (`VehicleLocationRoute`,
`VehicleLocationTime`). -/
inductive VehicleLocationParam where
  | route (routeTag : String)
  | time (t : String)
deriving DecidableEq

/-- The query fragment produced by invoking a `VehicleLocationParam`. -/
def VehicleLocationParam.render : VehicleLocationParam → String
  | .route routeTag => "r=" ++ queryEscape routeTag
  | .time t => "t=" ++ queryEscape t

/-- Whether the option is a since-time option. -/
def VehicleLocationParam.isTime : VehicleLocationParam → Bool
  | .route _ => false
  | .time _ => true

/-- The query-parameter list built by `GetVehicleLocations`: the loop
appends every rendered option, recording whether any rendered fragment
has the prefix `t=`; when none had, the default `t=0`
(`VehicleLocationTime "0"`) is appended. -/
def vehicleLocationsParams (agencyTag : String)
    (configParams : List VehicleLocationParam) : List String :=
  let step := configParams.foldl
    (fun (acc : List String × Bool) cp =>
      let paramText := cp.render
      (acc.1 ++ [paramText], acc.2 || strStartsWith paramText "t="))
    (["command=vehicleLocations", "a=" ++ queryEscape agencyTag], false)
  if step.2 then step.1 else step.1 ++ [VehicleLocationParam.render (.time "0")]

/-- Request URL of `GetVehicleLocations`. -/
def vehicleLocationsURL (agencyTag : String)
    (configParams : List VehicleLocationParam) : String :=
  publicXMLFeed ++ "?" ++ String.intercalate "&" (vehicleLocationsParams agencyTag configParams)

/-- An XML element: name, attributes in document order, child elements in
document order.  Character data, namespaces and the like play no role in
the feed schemas (all data values are attributes). -/
inductive Xml where
  | elem (name : String) (attrs : List (String × String)) (children : List Xml)

/-- Element name. -/
def Xml.name : Xml → String
  | .elem n _ _ => n

/-- Attribute list. -/
def Xml.attrs : Xml → List (String × String)
  | .elem _ a _ => a

/-- Child elements. -/
def Xml.children : Xml → List Xml
  | .elem _ _ c => c

/-- Value of attribute `k`, as `encoding/xml` fills a `,attr` string
field: the decoder walks the attribute list and assigns each match, so
the last matching attribute wins; with no match the field keeps its zero
value `""`. -/
def Xml.attr (x : Xml) (k : String) : String :=
  x.attrs.foldl (fun acc p => if p.1 = k then p.2 else acc) ""

/-- The `Agency` record (all fields as in the source; `XMLName` holds the
element name). -/
structure Agency where
  XMLName : String
  Tag : String
  Title : String
  RegionTitle : String
deriving DecidableEq

/-- The `AgencyResponse` envelope. -/
structure AgencyResponse where
  XMLName : String
  AgencyList : List Agency
deriving DecidableEq

/-- The `Route` record. -/
structure Route where
  XMLName : String
  Tag : String
  Title : String
deriving DecidableEq

/-- The `RouteResponse` envelope. -/
structure RouteResponse where
  XMLName : String
  RouteList : List Route
deriving DecidableEq

/-- The `Stop` record. -/
structure Stop where
  XMLName : String
  Tag : String
  Title : String
  Lat : String
  Lon : String
  StopID : String
deriving DecidableEq

/-- The `StopMarker` record (a stop reference inside a `Direction`). -/
structure StopMarker where
  XMLName : String
  Tag : String
deriving DecidableEq

/-- The `Direction` record. -/
structure Direction where
  XMLName : String
  Tag : String
  Title : String
  Name : String
  UseForUI : String
  StopMarkerList : List StopMarker
deriving DecidableEq

/-- The `Point` record. -/
structure Point where
  XMLName : String
  Lat : String
  Lon : String
deriving DecidableEq

/-- The `Path` record. -/
structure RoutePath where
  XMLName : String
  PointList : List Point
deriving DecidableEq

/-- The `RouteConfig` record. -/
structure RouteConfig where
  XMLName : String
  StopList : List Stop
  Tag : String
  Title : String
  Color : String
  OppositeColor : String
  LatMin : String
  LatMax : String
  LonMin : String
  LonMax : String
  DirList : List Direction
  PathList : List RoutePath
deriving DecidableEq

/-- The `RouteConfigResponse` envelope. -/
structure RouteConfigResponse where
  XMLName : String
  RouteList : List RouteConfig
deriving DecidableEq

/-- The `Prediction` record. -/
structure Prediction where
  XMLName : String
  EpochTime : String
  Seconds : String
  Minutes : String
  IsDeparture : String
  AffectedByLayover : String
  DirTag : String
  Vehicle : String
  VehiclesInConsist : String
  Block : String
  TripTag : String
deriving DecidableEq

/-- The `PredictionDirection` record. -/
structure PredictionDirection where
  XMLName : String
  PredictionList : List Prediction
  Title : String
deriving DecidableEq

/-- The `Message` record. -/
structure Message where
  XMLName : String
  Text : String
  Priority : String
deriving DecidableEq

/-- The `PredictionData` record. -/
structure PredictionData where
  XMLName : String
  PredictionDirectionList : List PredictionDirection
  MessageList : List Message
  AgencyTitle : String
  RouteTitle : String
  RouteTag : String
  StopTitle : String
  StopTag : String
deriving DecidableEq

/-- The `PredictionResponse` envelope. -/
structure PredictionResponse where
  XMLName : String
  PredictionDataList : List PredictionData
deriving DecidableEq

/-- The `VehicleLocation` record. -/
structure VehicleLocation where
  XMLName : String
  ID : String
  RouteTag : String
  DirTag : String
  Lat : String
  Lon : String
  SecsSinceReport : String
  Predictable : String
  Heading : String
  SpeedKmHr : String
  LeadingVehicleID : String
deriving DecidableEq

/-- The `LocationLastTime` record. -/
structure LocationLastTime where
  XMLName : String
  Time : String
deriving DecidableEq

/-- The `LocationResponse` envelope: the vehicle list together with the
last-report timestamp. -/
structure LocationResponse where
  XMLName : String
  VehicleList : List VehicleLocation
  LastTime : LocationLastTime
deriving DecidableEq

/-- Decode one `agency` element. -/
def decodeAgency (x : Xml) : Agency :=
  { XMLName := x.name, Tag := x.attr "tag", Title := x.attr "title",
    RegionTitle := x.attr "regionTitle" }

/-- Decode an `AgencyResponse`: the root element must be named `body`
(the `XMLName xml.Name xml:"body"` field makes `xml.Unmarshal` fail on
any other root); the `agency` children are collected in document order. -/
def decodeAgencyResponse (root : Xml) : Except String AgencyResponse :=
  if root.name = "body" then
    .ok { XMLName := root.name,
          AgencyList := (root.children.filter (fun c => c.name = "agency")).map decodeAgency }
  else .error ("expected element type <body> but have <" ++ root.name ++ ">")

/-- Decode one `route` element of a route list. -/
def decodeRoute (x : Xml) : Route :=
  { XMLName := x.name, Tag := x.attr "tag", Title := x.attr "title" }

/-- Decode a `RouteResponse`. -/
def decodeRouteResponse (root : Xml) : Except String RouteResponse :=
  if root.name = "body" then
    .ok { XMLName := root.name,
          RouteList := (root.children.filter (fun c => c.name = "route")).map decodeRoute }
  else .error ("expected element type <body> but have <" ++ root.name ++ ">")

/-- Decode one `stop` element of a route configuration. -/
def decodeStop (x : Xml) : Stop :=
  { XMLName := x.name, Tag := x.attr "tag", Title := x.attr "title",
    Lat := x.attr "lat", Lon := x.attr "lon", StopID := x.attr "stopId" }

/-- Decode one `stop` marker element of a direction. -/
def decodeStopMarker (x : Xml) : StopMarker :=
  { XMLName := x.name, Tag := x.attr "tag" }

/-- Decode one `direction` element of a route configuration.  The stop
markers are taken from the direction's own children, in document order,
with no lookup into the route's stop list. -/
def decodeDirection (x : Xml) : Direction :=
  { XMLName := x.name, Tag := x.attr "tag", Title := x.attr "title",
    Name := x.attr "name", UseForUI := x.attr "useForUI",
    StopMarkerList := (x.children.filter (fun c => c.name = "stop")).map decodeStopMarker }

/-- Decode one `point` element. -/
def decodePoint (x : Xml) : Point :=
  { XMLName := x.name, Lat := x.attr "lat", Lon := x.attr "lon" }

/-- Decode one `path` element. -/
def decodeRoutePath (x : Xml) : RoutePath :=
  { XMLName := x.name,
    PointList := (x.children.filter (fun c => c.name = "point")).map decodePoint }

/-- Decode one `route` element of a route configuration. -/
def decodeRouteConfig (x : Xml) : RouteConfig :=
  { XMLName := x.name,
    StopList := (x.children.filter (fun c => c.name = "stop")).map decodeStop,
    Tag := x.attr "tag", Title := x.attr "title", Color := x.attr "color",
    OppositeColor := x.attr "oppositeColor", LatMin := x.attr "latMin",
    LatMax := x.attr "latMax", LonMin := x.attr "lonMin", LonMax := x.attr "lonMax",
    DirList := (x.children.filter (fun c => c.name = "direction")).map decodeDirection,
    PathList := (x.children.filter (fun c => c.name = "path")).map decodeRoutePath }

/-- Decode a `RouteConfigResponse`. -/
def decodeRouteConfigResponse (root : Xml) : Except String RouteConfigResponse :=
  if root.name = "body" then
    .ok { XMLName := root.name,
          RouteList := (root.children.filter (fun c => c.name = "route")).map decodeRouteConfig }
  else .error ("expected element type <body> but have <" ++ root.name ++ ">")

/-- Decode one `prediction` element. -/
def decodePrediction (x : Xml) : Prediction :=
  { XMLName := x.name, EpochTime := x.attr "epochTime", Seconds := x.attr "seconds",
    Minutes := x.attr "minutes", IsDeparture := x.attr "isDeparture",
    AffectedByLayover := x.attr "affectedByLayover", DirTag := x.attr "dirTag",
    Vehicle := x.attr "vehicle", VehiclesInConsist := x.attr "vehiclesInConsist",
    Block := x.attr "block", TripTag := x.attr "tripTag" }

/-- Decode one `direction` element of a predictions response. -/
def decodePredictionDirection (x : Xml) : PredictionDirection :=
  { XMLName := x.name,
    PredictionList := (x.children.filter (fun c => c.name = "prediction")).map decodePrediction,
    Title := x.attr "title" }

/-- Decode one `message` element. -/
def decodeMessage (x : Xml) : Message :=
  { XMLName := x.name, Text := x.attr "text", Priority := x.attr "priority" }

/-- Decode one `predictions` element. -/
def decodePredictionData (x : Xml) : PredictionData :=
  { XMLName := x.name,
    PredictionDirectionList :=
      (x.children.filter (fun c => c.name = "direction")).map decodePredictionDirection,
    MessageList := (x.children.filter (fun c => c.name = "message")).map decodeMessage,
    AgencyTitle := x.attr "agencyTitle", RouteTitle := x.attr "routeTitle",
    RouteTag := x.attr "routeTag", StopTitle := x.attr "stopTitle",
    StopTag := x.attr "stopTag" }

/-- Decode a `PredictionResponse`. -/
def decodePredictionResponse (root : Xml) : Except String PredictionResponse :=
  if root.name = "body" then
    .ok { XMLName := root.name,
          PredictionDataList :=
            (root.children.filter (fun c => c.name = "predictions")).map decodePredictionData }
  else .error ("expected element type <body> but have <" ++ root.name ++ ">")

/-- Decode one `vehicle` element. -/
def decodeVehicleLocation (x : Xml) : VehicleLocation :=
  { XMLName := x.name, ID := x.attr "id", RouteTag := x.attr "routeTag",
    DirTag := x.attr "dirTag", Lat := x.attr "lat", Lon := x.attr "lon",
    SecsSinceReport := x.attr "secsSinceReport", Predictable := x.attr "predictable",
    Heading := x.attr "heading", SpeedKmHr := x.attr "speedKmHr",
    LeadingVehicleID := x.attr "leadingVehicleId" }

/-- Decode one `lastTime` element. -/
def decodeLocationLastTime (x : Xml) : LocationLastTime :=
  { XMLName := x.name, Time := x.attr "time" }

/-- Decode a `LocationResponse`: the `vehicle` children are collected in
document order; the single `LastTime` field is assigned from each
`lastTime` child in turn (last wins), and keeps its zero value when none
is present. -/
def decodeLocationResponse (root : Xml) : Except String LocationResponse :=
  if root.name = "body" then
    .ok { XMLName := root.name,
          VehicleList := (root.children.filter (fun c => c.name = "vehicle")).map decodeVehicleLocation,
          LastTime := root.children.foldl
            (fun acc c => if c.name = "lastTime" then decodeLocationLastTime c else acc)
            { XMLName := "", Time := "" } }
  else .error ("expected element type <body> but have <" ++ root.name ++ ">")

/-- The outcome of the HTTP round trip, as the operations consume it:
the status code, the outcome of `ioutil.ReadAll` on the body
(`readErr`), and the outcome that `xml.Unmarshal` would produce on the
bytes `ReadAll` returned (`bodyDoc`; on a failed read these are the
partial bytes read before the failure). -/
structure HttpResp where
  status : Nat
  readErr : Option String
  bodyDoc : Except String Xml

/-- An injectable HTTP transport: a GET of the given URL either fails or
yields a response. -/
def Transport : Type := String → Except String HttpResp

/-- Response handling of `GetAgencyList`: transport error, then read
error, then XML decode, then extraction of the agency list from the
envelope. -/
def handleAgencyList (resp : Except String HttpResp) : Except String (List Agency) :=
  match resp with
  | .error httpErr => .error ("could not fetch agencies from nextbus: " ++ httpErr)
  | .ok r =>
    match r.readErr with
    | some readE => .error ("could not parse agencies response body: " ++ readE)
    | none =>
      match r.bodyDoc >>= decodeAgencyResponse with
      | .error xmlErr => .error ("could not parse agencies XML: " ++ xmlErr)
      | .ok a => .ok a.AgencyList

/-- Response handling of `GetRouteList`. -/
def handleRouteList (resp : Except String HttpResp) : Except String (List Route) :=
  match resp with
  | .error httpErr => .error ("could not fetch routes from nextbus: " ++ httpErr)
  | .ok r =>
    match r.readErr with
    | some readE => .error ("could not parse routes response body: " ++ readE)
    | none =>
      match r.bodyDoc >>= decodeRouteResponse with
      | .error xmlErr => .error ("could not parse routes XML: " ++ xmlErr)
      | .ok a => .ok a.RouteList

/-- Response handling of `GetRouteConfig`. -/
def handleRouteConfig (resp : Except String HttpResp) : Except String (List RouteConfig) :=
  match resp with
  | .error httpErr => .error ("could not fetch route config from nextbus: " ++ httpErr)
  | .ok r =>
    match r.readErr with
    | some readE => .error ("could not parse route config response body: " ++ readE)
    | none =>
      match r.bodyDoc >>= decodeRouteConfigResponse with
      | .error xmlErr => .error ("could not parse route config XML: " ++ xmlErr)
      | .ok a => .ok a.RouteList

/-- Response handling of `GetStopPredictions`. -/
def handleStopPredictions (resp : Except String HttpResp) :
    Except String (List PredictionData) :=
  match resp with
  | .error httpErr => .error ("could not fetch stop predictions from nextbus: " ++ httpErr)
  | .ok r =>
    match r.readErr with
    | some readE => .error ("could not parse stop predictions response body: " ++ readE)
    | none =>
      match r.bodyDoc >>= decodePredictionResponse with
      | .error xmlErr => .error ("could not parse stop predictions XML: " ++ xmlErr)
      | .ok a => .ok a.PredictionDataList

/-- Response handling of `GetPredictions`. -/
def handlePredictions (resp : Except String HttpResp) :
    Except String (List PredictionData) :=
  match resp with
  | .error httpErr => .error ("could not fetch predictions from nextbus: " ++ httpErr)
  | .ok r =>
    match r.readErr with
    | some readE => .error ("could not parse predictions response body: " ++ readE)
    | none =>
      match r.bodyDoc >>= decodePredictionResponse with
      | .error xmlErr => .error ("could not parse predictions XML: " ++ xmlErr)
      | .ok a => .ok a.PredictionDataList

/-- Response handling of `GetPredictionsForMultiStops`. -/
def handleMultiStops (resp : Except String HttpResp) :
    Except String (List PredictionData) :=
  match resp with
  | .error httpErr =>
    .error ("could not fetch predictions for multiple stops from nextbus: " ++ httpErr)
  | .ok r =>
    match r.readErr with
    | some readE =>
      .error ("could not parse predictions for multiple stops response body: " ++ readE)
    | none =>
      match r.bodyDoc >>= decodePredictionResponse with
      | .error xmlErr => .error ("could not parse predictions for multiple stops XML: " ++ xmlErr)
      | .ok a => .ok a.PredictionDataList

/-- Response handling of `GetVehicleLocations`, translated exactly as
written in the source: the read check is `if readErr == nil`, so a
successful read returns an error (formatting the nil cause as `<nil>`),
and a failed read falls through to `xml.Unmarshal` on the partial body. -/
def handleVehicleLocations (resp : Except String HttpResp) :
    Except String LocationResponse :=
  match resp with
  | .error httpErr => .error ("could not fetch vehicle locations from nextbus: " ++ httpErr)
  | .ok r =>
    match r.readErr with
    | none => .error "could not parse vehicle locations response body: <nil>"
    | some _ =>
      match r.bodyDoc >>= decodeLocationResponse with
      | .error xmlErr => .error ("could not parse vehicle locations XML: " ++ xmlErr)
      | .ok result => .ok result

/-- Operation `Client.GetAgencyList` composed with a transport. -/
def GetAgencyList (t : Transport) : Except String (List Agency) :=
  handleAgencyList (t agencyListURL)

/-- Operation `Client.GetRouteList` composed with a transport. -/
def GetRouteList (t : Transport) (agencyTag : String) : Except String (List Route) :=
  handleRouteList (t (routeListURL agencyTag))

/-- Operation `Client.GetRouteConfig` composed with a transport. -/
def GetRouteConfig (t : Transport) (agencyTag : String)
    (configParams : List RouteConfigParam) : Except String (List RouteConfig) :=
  handleRouteConfig (t (routeConfigURL agencyTag configParams))

/-- Operation `Client.GetStopPredictions` composed with a transport. -/
def GetStopPredictions (t : Transport) (agencyTag stopID : String) :
    Except String (List PredictionData) :=
  handleStopPredictions (t (stopPredictionsURL agencyTag stopID))

/-- Operation `Client.GetPredictions` composed with a transport. -/
def GetPredictions (t : Transport) (agencyTag routeTag stopTag : String) :
    Except String (List PredictionData) :=
  handlePredictions (t (predictionsURL agencyTag routeTag stopTag))

/-- Operation `Client.GetPredictionsForMultiStops` composed with a transport. -/
def GetPredictionsForMultiStops (t : Transport) (agencyTag : String)
    (params : List PredReqParam) : Except String (List PredictionData) :=
  handleMultiStops (t (multiStopsURL agencyTag params))

/-- Operation `Client.GetVehicleLocations` composed with a transport. -/
def GetVehicleLocations (t : Transport) (agencyTag : String)
    (configParams : List VehicleLocationParam) : Except String LocationResponse :=
  handleVehicleLocations (t (vehicleLocationsURL agencyTag configParams))

/-- The canned `vehicleLocations` response body of the repository's own
`TestGetVehicleLocations`, as the element tree `xml.Unmarshal` sees it. -/
def cannedVehicleLocationsDoc : Xml :=
  .elem "body" [("copyright", "All data copyright some transit company.")]
    [.elem "vehicle"
       [("id", "1111"), ("routeTag", "1"), ("dirTag", "1_outbound"),
        ("lat", "37.77513"), ("lon", "-122.41946"), ("secsSinceReport", "4"),
        ("predictable", "true"), ("heading", "225"), ("speedKmHr", "0"),
        ("leadingVehicleId", "1112")] [],
     .elem "vehicle"
       [("id", "2222"), ("routeTag", "2"), ("dirTag", "2_inbound"),
        ("lat", "37.74891"), ("lon", "-122.45848"), ("secsSinceReport", "5"),
        ("predictable", "true"), ("heading", "217"), ("speedKmHr", "0"),
        ("leadingVehicleId", "2223")] [],
     .elem "lastTime" [("time", "1234567890123")] []]

/-- A `routeConfig` response body whose single direction carries a stop
marker (`ZZZ`) that references no stop of the route's stop list. -/
def danglingMarkerDoc : Xml :=
  .elem "body" [("copyright", "c")]
    [.elem "route" [("tag", "1")]
      [.elem "stop" [("tag", "1123"), ("title", "First stop")] [],
       .elem "direction" [("tag", "1out")]
         [.elem "stop" [("tag", "ZZZ")] []]]]

/-- Statement that the list `l` consists of exactly one decoded entry
per child of `kids` named `nm`, in document order: the lengths agree and
the i-th entry of `l` is the decode of the i-th matching child — so
nothing is re-sorted, de-duplicated or dropped. -/
def decodesChildrenInOrder {α : Type} (dec : Xml → α) (nm : String)
    (kids : List Xml) (l : List α) : Prop :=
  l.length = (kids.filter (fun c => c.name = nm)).length ∧
  ∀ i : Nat, l[i]? = ((kids.filter (fun c => c.name = nm))[i]?).map dec

lemma listStartsWith_append (p l : List Char) : listStartsWith (p ++ l) p = true := by
  induction p with
  | nil => simp [listStartsWith]
  | cons c cs ih => simp [listStartsWith, ih]

lemma strStartsWith_append (p x : String) : strStartsWith (p ++ x) p = true := by
  simp [strStartsWith, String.data_append, listStartsWith_append]

lemma render_startsWith_time (o : VehicleLocationParam) :
    strStartsWith o.render "t=" = o.isTime := by
  cases o with
  | route r =>
    show strStartsWith ("r=" ++ queryEscape r) "t=" = false
    simp [strStartsWith, String.data_append, listStartsWith]
  | time t =>
    show strStartsWith ("t=" ++ queryEscape t) "t=" = true
    exact strStartsWith_append "t=" (queryEscape t)

lemma vlFoldlEq (opts : List VehicleLocationParam) (acc : List String) (b : Bool) :
    opts.foldl
      (fun (acc : List String × Bool) cp =>
        (acc.1 ++ [cp.render], acc.2 || strStartsWith cp.render "t=")) (acc, b)
      = (acc ++ opts.map VehicleLocationParam.render,
         b || opts.any (fun cp => strStartsWith cp.render "t=")) := by
  induction opts generalizing acc b with
  | nil => simp
  | cons o os ih => simp [ih, Bool.or_assoc]

lemma strStartsWith_a_append (x : String) (pin : String) (c : Char) (cs : List Char)
    (hpin : pin.data = c :: cs) (hne : ('a' == c) = false) :
    strStartsWith ("a=" ++ x) pin = false := by
  simp [strStartsWith, String.data_append, hpin, listStartsWith,
    show ("a=" : String).data = ['a', '='] from rfl]
  intro h
  simp_all

lemma a_append_ne (x s : String) (hne : listStartsWith s.data ['a', '='] = false) :
    ("a=" ++ x) ≠ s := by
  intro h
  have hd := congrArg String.data h
  rw [String.data_append] at hd
  rw [← hd] at hne
  simp [listStartsWith, show ("a=" : String).data = ['a', '='] from rfl] at hne

lemma decodesChildrenInOrder_map {α : Type} (dec : Xml → α) (nm : String)
    (kids : List Xml) :
    decodesChildrenInOrder dec nm kids
      ((kids.filter (fun c => c.name = nm)).map dec) := by
  refine ⟨by simp, fun i => ?_⟩
  simp [List.getElem?_map]

/-- C1: the read-error check of `GetVehicleLocations` is inverted in the
source (`if readErr == nil` instead of `!= nil`), so on the repository's
own test fixture — the transport GET succeeds and the body is read to
completion without error — the operation returns an error (formatting
the nil cause) instead of parsing the body and returning the decoded
`LocationResponse` envelope, contradicting `TestGetVehicleLocations`. -/
theorem c1_vehicle_locations_read_check_inverted :
    handleVehicleLocations (.ok ⟨200, none, .ok cannedVehicleLocationsDoc⟩)
      = .error "could not parse vehicle locations response body: <nil>" := rfl

/-- C2 counterexample: in `GetRouteList` the agency tag is concatenated
into the URL verbatim, so for the agency tag `"a b"` the request URL
does not contain the percent-encoded value `a+b` — it contains the raw
`a=a b` instead. -/
theorem c2_unencoded_value_counterexample :
    strContainsSub (routeListURL "a b") (queryEscape "a b") = false ∧
    strContainsSub (routeListURL "a b") "a=a b" = true := by decide

/-- C2 amended: percent-encoding is applied to the agency tag only by
`GetRouteConfig`, `GetPredictionsForMultiStops` and
`GetVehicleLocations`, and to every option-supplied value; the direct
parameters of `GetRouteList`, `GetStopPredictions` and `GetPredictions`
are concatenated into the URL verbatim. -/
theorem c2_percent_encoding_amended (a r s i t routeTag stopTag : String)
    (cps : List RouteConfigParam) (ps : List PredReqParam)
    (vps : List VehicleLocationParam) :
    routeListURL a = publicXMLFeed ++ "?command=routeList&a=" ++ a ∧
    stopPredictionsURL a i
      = publicXMLFeed ++ "?command=predictions&a=" ++ a ++ "&stopId=" ++ i ∧
    predictionsURL a r s
      = publicXMLFeed ++ "?command=predictions&a=" ++ a ++ "&r=" ++ r ++ "&s=" ++ s ∧
    "a=" ++ queryEscape a ∈ routeConfigParams a cps ∧
    "a=" ++ queryEscape a ∈ multiStopsParams a ps ∧
    "a=" ++ queryEscape a ∈ vehicleLocationsParams a vps ∧
    RouteConfigParam.render (.tag t) = "r=" ++ queryEscape t ∧
    PredReqParam.render (.stop routeTag stopTag)
      = "stops=" ++ queryEscape (routeTag ++ "|" ++ stopTag) ∧
    VehicleLocationParam.render (.route routeTag) = "r=" ++ queryEscape routeTag ∧
    VehicleLocationParam.render (.time t) = "t=" ++ queryEscape t := by
  refine ⟨rfl, rfl, rfl, ?_, ?_, ?_, rfl, rfl, rfl, rfl⟩
  · simp [routeConfigParams]
  · simp [multiStopsParams]
  · cases hany : vps.any (fun cp => strStartsWith cp.render "t=") with
    | true => simp [vehicleLocationsParams, vlFoldlEq, hany]
    | false => simp [vehicleLocationsParams, vlFoldlEq, hany]

/-- C3: `GetPredictionsForMultiStops` with the stop options `("1","1123")`
and `("1","1124")` produces exactly two repeated `stops=` parameters, in
order; each value is the route tag and stop tag joined by a literal `|`
and percent-encoded as a unit, and percent-decodes back to `1|1123` and
`1|1124`. -/
theorem c3_multi_stop_encoding (a : String) :
    (multiStopsParams a [.stop "1" "1123", .stop "1" "1124"]).filter
        (fun p => strStartsWith p "stops=")
      = ["stops=" ++ queryEscape ("1" ++ "|" ++ "1123"),
         "stops=" ++ queryEscape ("1" ++ "|" ++ "1124")] ∧
    queryEscape ("1" ++ "|" ++ "1123") = "1%7C1123" ∧
    queryEscape ("1" ++ "|" ++ "1124") = "1%7C1124" ∧
    queryUnescape "1%7C1123" = some "1|1123" ∧
    queryUnescape "1%7C1124" = some "1|1124" := by
  refine ⟨?_, by decide, by decide, by decide, by decide⟩
  have h1 : strStartsWith ("a=" ++ queryEscape a) "stops=" = false :=
    strStartsWith_a_append _ _ 's' _ rfl (by decide)
  have h2 : strStartsWith "command=predictionsForMultiStops" "stops=" = false := by decide
  simp [multiStopsParams, List.filter, h1, h2, PredReqParam.render, strStartsWith_append]

/-- C4: `GetVehicleLocations` with no since-time option among its
options appends the default since-time parameter `t=0`
(`VehicleLocationTime "0"`) to the query, so the request URL carries a
since-time parameter equal to the literal `0`. -/
theorem c4_default_since_time (a : String) (opts : List VehicleLocationParam)
    (h : ∀ o ∈ opts, o.isTime = false) :
    vehicleLocationsParams a opts
      = ["command=vehicleLocations", "a=" ++ queryEscape a]
          ++ opts.map VehicleLocationParam.render ++ ["t=" ++ queryEscape "0"] ∧
    "t=0" ∈ vehicleLocationsParams a opts := by
  have hany : opts.any (fun cp => strStartsWith cp.render "t=") = false := by
    rw [List.any_eq_false]
    intro o ho
    rw [render_startsWith_time o]
    simp [h o ho]
  have hmain : vehicleLocationsParams a opts
      = ["command=vehicleLocations", "a=" ++ queryEscape a]
          ++ opts.map VehicleLocationParam.render ++ ["t=" ++ queryEscape "0"] := by
    simp [vehicleLocationsParams, vlFoldlEq, hany,
      show VehicleLocationParam.render (.time "0") = "t=" ++ queryEscape "0" from rfl]
  refine ⟨hmain, ?_⟩
  rw [hmain]
  have h0 : ("t=0" : String) = "t=" ++ queryEscape "0" := by decide
  rw [h0]
  simp

/-- C4 witness: a concrete call with one route option and no time
option. -/
theorem c4_default_since_time_witness :
    vehicleLocationsParams "sf-muni" [.route "N"]
      = ["command=vehicleLocations", "a=" ++ queryEscape "sf-muni"]
          ++ [VehicleLocationParam.route "N"].map VehicleLocationParam.render
          ++ ["t=" ++ queryEscape "0"] ∧
    "t=0" ∈ vehicleLocationsParams "sf-muni" [.route "N"] :=
  c4_default_since_time "sf-muni" [.route "N"] (by decide)

/-- C5: `GetRouteConfig` with the route restriction `N` produces a query
containing the fragment `r=N`, and supplying both the terse option and
the route restriction produces a query containing both `terse` and
`r=N`, each exactly once. -/
theorem c5_route_config_fragments (a : String) :
    "r=N" ∈ routeConfigParams a [.tag "N"] ∧
    routeConfigParams a [.terse, .tag "N"]
      = ["command=routeConfig", "a=" ++ queryEscape a, "terse", "r=N"] ∧
    (routeConfigParams a [.terse, .tag "N"]).count "terse" = 1 ∧
    (routeConfigParams a [.terse, .tag "N"]).count "r=N" = 1 := by
  have hN : RouteConfigParam.render (.tag "N") = "r=N" := by decide
  have hexp : routeConfigParams a [.terse, .tag "N"]
      = ["command=routeConfig", "a=" ++ queryEscape a, "terse", "r=N"] := by
    simp [routeConfigParams, RouteConfigParam.render]
    decide
  have hne1 : ("a=" ++ queryEscape a) ≠ "terse" := a_append_ne _ _ (by decide)
  have hne2 : ("a=" ++ queryEscape a) ≠ "r=N" := a_append_ne _ _ (by decide)
  refine ⟨?_, hexp, ?_, ?_⟩
  · simp [routeConfigParams, hN]
  · rw [hexp]
    simp [List.count_cons, hne1]
  · rw [hexp]
    simp [List.count_cons, hne2]

/-- C6: on a successful call every operation returns exactly the
sub-list extracted from its decoded envelope (agency list, route list,
route-config list, prediction-data list), never the envelope itself,
while `GetVehicleLocations` alone returns the full decoded
`LocationResponse` envelope (vehicle list plus last-report timestamp). -/
theorem c6_envelope_extraction (s : Nat) (re : String) (doc : Xml) :
    (∀ env, decodeAgencyResponse doc = .ok env →
      handleAgencyList (.ok ⟨s, none, .ok doc⟩) = .ok env.AgencyList) ∧
    (∀ env, decodeRouteResponse doc = .ok env →
      handleRouteList (.ok ⟨s, none, .ok doc⟩) = .ok env.RouteList) ∧
    (∀ env, decodeRouteConfigResponse doc = .ok env →
      handleRouteConfig (.ok ⟨s, none, .ok doc⟩) = .ok env.RouteList) ∧
    (∀ env, decodePredictionResponse doc = .ok env →
      handleStopPredictions (.ok ⟨s, none, .ok doc⟩) = .ok env.PredictionDataList) ∧
    (∀ env, decodePredictionResponse doc = .ok env →
      handlePredictions (.ok ⟨s, none, .ok doc⟩) = .ok env.PredictionDataList) ∧
    (∀ env, decodePredictionResponse doc = .ok env →
      handleMultiStops (.ok ⟨s, none, .ok doc⟩) = .ok env.PredictionDataList) ∧
    (∀ env, decodeLocationResponse doc = .ok env →
      handleVehicleLocations (.ok ⟨s, some re, .ok doc⟩) = .ok env) := by
  refine ⟨?_, ?_, ?_, ?_, ?_, ?_, ?_⟩ <;> intro env henv <;>
    simp [handleAgencyList, handleRouteList, handleRouteConfig, handleStopPredictions,
      handlePredictions, handleMultiStops, handleVehicleLocations,
      Bind.bind, Except.bind, henv]

/-- C6 witness: the empty `body` envelope, decoded by each operation. -/
theorem c6_envelope_extraction_witness :
    handleAgencyList (.ok ⟨200, none, .ok (.elem "body" [] [])⟩) = .ok [] ∧
    handleRouteList (.ok ⟨200, none, .ok (.elem "body" [] [])⟩) = .ok [] ∧
    handleRouteConfig (.ok ⟨200, none, .ok (.elem "body" [] [])⟩) = .ok [] ∧
    handleStopPredictions (.ok ⟨200, none, .ok (.elem "body" [] [])⟩) = .ok [] ∧
    handlePredictions (.ok ⟨200, none, .ok (.elem "body" [] [])⟩) = .ok [] ∧
    handleMultiStops (.ok ⟨200, none, .ok (.elem "body" [] [])⟩) = .ok [] ∧
    handleVehicleLocations (.ok ⟨200, some "boom", .ok (.elem "body" [] [])⟩)
      = .ok ⟨"body", [], ⟨"", ""⟩⟩ :=
  ⟨(c6_envelope_extraction 200 "boom" (.elem "body" [] [])).1 ⟨"body", []⟩ rfl,
   (c6_envelope_extraction 200 "boom" (.elem "body" [] [])).2.1 ⟨"body", []⟩ rfl,
   (c6_envelope_extraction 200 "boom" (.elem "body" [] [])).2.2.1 ⟨"body", []⟩ rfl,
   (c6_envelope_extraction 200 "boom" (.elem "body" [] [])).2.2.2.1 ⟨"body", []⟩ rfl,
   (c6_envelope_extraction 200 "boom" (.elem "body" [] [])).2.2.2.2.1 ⟨"body", []⟩ rfl,
   (c6_envelope_extraction 200 "boom" (.elem "body" [] [])).2.2.2.2.2.1 ⟨"body", []⟩ rfl,
   (c6_envelope_extraction 200 "boom" (.elem "body" [] [])).2.2.2.2.2.2
     ⟨"body", [], ⟨"", ""⟩⟩ rfl⟩

/-- C7: for every operation, a well-formed `body` envelope with N
matching repeated children decodes to a list of exactly N entries, the
i-th decoded entry coming from the i-th matching child (document order,
nothing re-sorted, de-duplicated or dropped) — stated for the decoded
lists of all five response shapes (agencies, routes, route configs,
predictions, vehicles) and for every nested list (stops, directions,
paths, stop markers, points, prediction directions, predictions,
messages) of an arbitrary element; and no referential-integrity
validation is performed: a route configuration whose direction
references a stop marker absent from the stop list decodes with the
dangling marker kept as-is. -/
theorem c7_order_preservation (attrs : List (String × String)) (kids : List Xml)
    (nm : String) (eattrs : List (String × String)) (ekids : List Xml) :
    (∃ env, decodeAgencyResponse (.elem "body" attrs kids) = .ok env ∧
      decodesChildrenInOrder decodeAgency "agency" kids env.AgencyList) ∧
    (∃ env, decodeRouteResponse (.elem "body" attrs kids) = .ok env ∧
      decodesChildrenInOrder decodeRoute "route" kids env.RouteList) ∧
    (∃ env, decodeRouteConfigResponse (.elem "body" attrs kids) = .ok env ∧
      decodesChildrenInOrder decodeRouteConfig "route" kids env.RouteList) ∧
    (∃ env, decodePredictionResponse (.elem "body" attrs kids) = .ok env ∧
      decodesChildrenInOrder decodePredictionData "predictions" kids env.PredictionDataList) ∧
    (∃ env, decodeLocationResponse (.elem "body" attrs kids) = .ok env ∧
      decodesChildrenInOrder decodeVehicleLocation "vehicle" kids env.VehicleList) ∧
    decodesChildrenInOrder decodeStop "stop" ekids
      (decodeRouteConfig (.elem nm eattrs ekids)).StopList ∧
    decodesChildrenInOrder decodeDirection "direction" ekids
      (decodeRouteConfig (.elem nm eattrs ekids)).DirList ∧
    decodesChildrenInOrder decodeRoutePath "path" ekids
      (decodeRouteConfig (.elem nm eattrs ekids)).PathList ∧
    decodesChildrenInOrder decodeStopMarker "stop" ekids
      (decodeDirection (.elem nm eattrs ekids)).StopMarkerList ∧
    decodesChildrenInOrder decodePoint "point" ekids
      (decodeRoutePath (.elem nm eattrs ekids)).PointList ∧
    decodesChildrenInOrder decodePredictionDirection "direction" ekids
      (decodePredictionData (.elem nm eattrs ekids)).PredictionDirectionList ∧
    decodesChildrenInOrder decodeMessage "message" ekids
      (decodePredictionData (.elem nm eattrs ekids)).MessageList ∧
    decodesChildrenInOrder decodePrediction "prediction" ekids
      (decodePredictionDirection (.elem nm eattrs ekids)).PredictionList ∧
    (∃ env2, decodeRouteConfigResponse danglingMarkerDoc = .ok env2 ∧
      env2.RouteList.map (fun rc => rc.DirList.map (fun d => d.StopMarkerList))
        = [[[⟨"stop", "ZZZ"⟩]]] ∧
      env2.RouteList.map (fun rc => rc.StopList.map (fun st => st.Tag)) = [["1123"]]) := by
  refine ⟨⟨⟨"body", (kids.filter (fun c => c.name = "agency")).map decodeAgency⟩,
      by simp [decodeAgencyResponse, Xml.name, Xml.children],
      decodesChildrenInOrder_map decodeAgency "agency" kids⟩,
    ⟨⟨"body", (kids.filter (fun c => c.name = "route")).map decodeRoute⟩,
      by simp [decodeRouteResponse, Xml.name, Xml.children],
      decodesChildrenInOrder_map decodeRoute "route" kids⟩,
    ⟨⟨"body", (kids.filter (fun c => c.name = "route")).map decodeRouteConfig⟩,
      by simp [decodeRouteConfigResponse, Xml.name, Xml.children],
      decodesChildrenInOrder_map decodeRouteConfig "route" kids⟩,
    ⟨⟨"body", (kids.filter (fun c => c.name = "predictions")).map decodePredictionData⟩,
      by simp [decodePredictionResponse, Xml.name, Xml.children],
      decodesChildrenInOrder_map decodePredictionData "predictions" kids⟩,
    ⟨⟨"body", (kids.filter (fun c => c.name = "vehicle")).map decodeVehicleLocation,
        kids.foldl (fun acc c => if c.name = "lastTime" then decodeLocationLastTime c else acc)
          ⟨"", ""⟩⟩,
      by simp [decodeLocationResponse, Xml.name, Xml.children],
      decodesChildrenInOrder_map decodeVehicleLocation "vehicle" kids⟩,
    decodesChildrenInOrder_map decodeStop "stop" ekids,
    decodesChildrenInOrder_map decodeDirection "direction" ekids,
    decodesChildrenInOrder_map decodeRoutePath "path" ekids,
    decodesChildrenInOrder_map decodeStopMarker "stop" ekids,
    decodesChildrenInOrder_map decodePoint "point" ekids,
    decodesChildrenInOrder_map decodePredictionDirection "direction" ekids,
    decodesChildrenInOrder_map decodeMessage "message" ekids,
    decodesChildrenInOrder_map decodePrediction "prediction" ekids,
    ⟨_, rfl, by decide, by decide⟩⟩

/-- C8: due to the inverted read check in `GetVehicleLocations`, a
genuine body-read failure (here `unexpected EOF` after a parseable
prefix) is not surfaced at all: the partial body is decoded and returned
as a success, so the read error's cause is not preserved in any returned
error, contradicting the spec's error-handling design (read errors are
to be wrapped and surfaced). -/
theorem c8_error_cause_lost :
    handleVehicleLocations (.ok ⟨200, some "unexpected EOF", .ok (.elem "body" [] [])⟩)
      = .ok ⟨"body", [], ⟨"", ""⟩⟩ := rfl

/-- C9 counterexample: `GetVehicleLocations` refutes the claim as
stated: a transport response whose body parses as the expected schema
(an empty `body` envelope, fully read) yields an error, not a
successful decoded result. -/
theorem c9_status_ignored_counterexample :
    handleVehicleLocations (.ok ⟨500, none, .ok (.elem "body" [] [])⟩)
      = .error "could not parse vehicle locations response body: <nil>" := rfl

/-- C9 amended: no operation inspects the HTTP status code — every
handler's result is unchanged under any change of status; for every
operation except `GetVehicleLocations` a fully-read body that parses as
the expected schema yields the decoded result even at status 500, while
`GetVehicleLocations` returns an error for every fully-read body
(whatever the status), its read check being inverted. -/
theorem c9_status_ignored_amended (s₁ s₂ : Nat) (re : Option String)
    (bd : Except String Xml) :
    (handleAgencyList (.ok ⟨s₁, re, bd⟩) = handleAgencyList (.ok ⟨s₂, re, bd⟩) ∧
     handleRouteList (.ok ⟨s₁, re, bd⟩) = handleRouteList (.ok ⟨s₂, re, bd⟩) ∧
     handleRouteConfig (.ok ⟨s₁, re, bd⟩) = handleRouteConfig (.ok ⟨s₂, re, bd⟩) ∧
     handleStopPredictions (.ok ⟨s₁, re, bd⟩) = handleStopPredictions (.ok ⟨s₂, re, bd⟩) ∧
     handlePredictions (.ok ⟨s₁, re, bd⟩) = handlePredictions (.ok ⟨s₂, re, bd⟩) ∧
     handleMultiStops (.ok ⟨s₁, re, bd⟩) = handleMultiStops (.ok ⟨s₂, re, bd⟩) ∧
     handleVehicleLocations (.ok ⟨s₁, re, bd⟩) = handleVehicleLocations (.ok ⟨s₂, re, bd⟩)) ∧
    (∀ doc env, decodeAgencyResponse doc = .ok env →
      handleAgencyList (.ok ⟨500, none, .ok doc⟩) = .ok env.AgencyList) ∧
    (∀ doc env, decodeRouteResponse doc = .ok env →
      handleRouteList (.ok ⟨500, none, .ok doc⟩) = .ok env.RouteList) ∧
    (∀ doc env, decodeRouteConfigResponse doc = .ok env →
      handleRouteConfig (.ok ⟨500, none, .ok doc⟩) = .ok env.RouteList) ∧
    (∀ doc env, decodePredictionResponse doc = .ok env →
      handleStopPredictions (.ok ⟨500, none, .ok doc⟩) = .ok env.PredictionDataList) ∧
    (∀ doc env, decodePredictionResponse doc = .ok env →
      handlePredictions (.ok ⟨500, none, .ok doc⟩) = .ok env.PredictionDataList) ∧
    (∀ doc env, decodePredictionResponse doc = .ok env →
      handleMultiStops (.ok ⟨500, none, .ok doc⟩) = .ok env.PredictionDataList) ∧
    (∀ doc, handleVehicleLocations (.ok ⟨s₁, none, .ok doc⟩)
      = .error "could not parse vehicle locations response body: <nil>") := by
  refine ⟨⟨rfl, rfl, rfl, rfl, rfl, rfl, rfl⟩, ?_, ?_, ?_, ?_, ?_, ?_, fun doc => rfl⟩ <;>
    intro doc env henv <;>
    simp [handleAgencyList, handleRouteList, handleRouteConfig, handleStopPredictions,
      handlePredictions, handleMultiStops, Bind.bind, Except.bind, henv]

/-- C9 witness: the amended statement at concrete inputs — the empty
`body` envelope at status 500 for each operation. -/
theorem c9_status_ignored_amended_witness :
    handleAgencyList (.ok ⟨500, none, .ok (.elem "body" [] [])⟩) = .ok [] ∧
    handleRouteList (.ok ⟨500, none, .ok (.elem "body" [] [])⟩) = .ok [] ∧
    handleRouteConfig (.ok ⟨500, none, .ok (.elem "body" [] [])⟩) = .ok [] ∧
    handleStopPredictions (.ok ⟨500, none, .ok (.elem "body" [] [])⟩) = .ok [] ∧
    handlePredictions (.ok ⟨500, none, .ok (.elem "body" [] [])⟩) = .ok [] ∧
    handleMultiStops (.ok ⟨500, none, .ok (.elem "body" [] [])⟩) = .ok [] :=
  ⟨(c9_status_ignored_amended 500 500 none (.ok (.elem "body" [] []))).2.1
     (.elem "body" [] []) ⟨"body", []⟩ rfl,
   (c9_status_ignored_amended 500 500 none (.ok (.elem "body" [] []))).2.2.1
     (.elem "body" [] []) ⟨"body", []⟩ rfl,
   (c9_status_ignored_amended 500 500 none (.ok (.elem "body" [] []))).2.2.2.1
     (.elem "body" [] []) ⟨"body", []⟩ rfl,
   (c9_status_ignored_amended 500 500 none (.ok (.elem "body" [] []))).2.2.2.2.1
     (.elem "body" [] []) ⟨"body", []⟩ rfl,
   (c9_status_ignored_amended 500 500 none (.ok (.elem "body" [] []))).2.2.2.2.2.1
     (.elem "body" [] []) ⟨"body", []⟩ rfl,
   (c9_status_ignored_amended 500 500 none (.ok (.elem "body" [] []))).2.2.2.2.2.2.1
     (.elem "body" [] []) ⟨"body", []⟩ rfl⟩

/-- C10: when more than one since-time option is supplied to
`GetVehicleLocations`, every rendered option fragment (each `t=` one
included) is appended to the query in the order supplied — none is
dropped, no last-wins precedence is applied — and the default `t=0` is
not appended. -/
theorem c10_multiple_time_options (a : String) (opts : List VehicleLocationParam)
    (h : 2 ≤ (opts.filter (fun o => o.isTime)).length) :
    vehicleLocationsParams a opts
      = ["command=vehicleLocations", "a=" ++ queryEscape a]
          ++ opts.map VehicleLocationParam.render := by
  have hpos : 0 < (opts.filter (fun o => o.isTime)).length :=
    lt_of_lt_of_le (by norm_num) h
  obtain ⟨o, ho⟩ := List.exists_mem_of_length_pos hpos
  rw [List.mem_filter] at ho
  have hany : opts.any (fun cp => strStartsWith cp.render "t=") = true := by
    rw [List.any_eq_true]
    exact ⟨o, ho.1, by rw [render_startsWith_time o]; exact ho.2⟩
  simp [vehicleLocationsParams, vlFoldlEq, hany]

/-- C10 witness: two time options, both kept in order, no default
appended. -/
theorem c10_multiple_time_options_witness :
    vehicleLocationsParams "sf-muni" [.time "5", .time "9"]
      = ["command=vehicleLocations", "a=" ++ queryEscape "sf-muni"]
          ++ [VehicleLocationParam.time "5", .time "9"].map VehicleLocationParam.render :=
  c10_multiple_time_options "sf-muni" [.time "5", .time "9"] (by decide)

end Nextbus
